import Mathlib

/-!
Verification of the MDS (Memfault Diagnostic Service) protocol engine.

Shallow embedding of `src/mds_protocol.c` (together with the constants of
`include/memfault_hid/mds_protocol.h` and the backend interface of
`include/mds_bridge/mds_backend.h`).

Modelling conventions:
- C `uint8_t` bytes are `Nat` values (< 256 where it matters); byte buffers
  are `List Nat`.
- C functions returning `int` error codes with out-parameters become
  `Except Int α` (the error is the negative errno the C code returns) or a
  pair `(Int × state)` where the C mutates its argument in place.
- A nullable pointer argument becomes an `Option`.  `mds_session_create`'s
  out-pointer is modelled by a `Bool` flag saying whether it is non-NULL
  (allocation is assumed to succeed, so the `-ENOMEM` branch is not
  modelled).
- The pluggable backend's vtable becomes a structure of functions
  (`read`, `write`) plus an identity tag used to observe which backend is
  released.  `mds_backend_read`/`mds_backend_write` on a NULL backend fail
  an `assert` in the C; that branch is modelled as an `-EFAULT` error and
  no theorem relies on it.
- Observable effects that the C performs besides its return value (the
  stderr sequence warning, the upload-callback invocation, the destructor's
  release/free calls) are recorded as explicit trace fields/events so that
  claims about them can be stated.
-/

namespace MdsBridge

/-! ## Constants from include/memfault_hid/mds_protocol.h -/

def MDS_REPORT_ID_SUPPORTED_FEATURES : Nat := 0x01

def MDS_REPORT_ID_DEVICE_IDENTIFIER : Nat := 0x02

def MDS_REPORT_ID_DATA_URI : Nat := 0x03

def MDS_REPORT_ID_AUTHORIZATION : Nat := 0x04

def MDS_REPORT_ID_STREAM_CONTROL : Nat := 0x05

def MDS_REPORT_ID_STREAM_DATA : Nat := 0x06

def MDS_MAX_DEVICE_ID_LEN : Nat := 64

def MDS_MAX_URI_LEN : Nat := 128

def MDS_MAX_AUTH_LEN : Nat := 128

def MDS_MAX_CHUNK_DATA_LEN : Nat := 63

def MDS_STREAM_MODE_DISABLED : Nat := 0x00

def MDS_STREAM_MODE_ENABLED : Nat := 0x01

def MDS_SEQUENCE_MASK : Nat := 0x1F

def MDS_SEQUENCE_MAX : Nat := 31

/-! ## errno values used by the source -/

def EINVAL : Int := 22

def EFAULT : Int := 14

/-! ## Data structures -/

/-- `mds_stream_packet_t`: sequence byte + payload.  `data` holds the
`data_len` valid bytes of the C packet's fixed array. -/
structure mds_stream_packet where
  sequence : Nat
  data : List Nat
  data_len : Nat
deriving Repr, DecidableEq

/-- `mds_device_config_t`.  The C string fields are byte buffers here. -/
structure mds_device_config where
  supported_features : Nat
  device_identifier : List Nat
  data_uri : List Nat
  authorization : List Nat
deriving Repr, DecidableEq

/-- `mds_backend_t`: the vtable as functions, plus an identity tag so that
releases can be attributed to a specific backend instance.
`read reportId maxLen timeoutMs` yields the bytes read (the C return count
is their length) or a negative error; `write reportId bytes` yields the C
`int` return (count written, or negative error). -/
structure mds_backend where
  id : Nat
  read : Nat → Nat → Int → Except Int (List Nat)
  write : Nat → List Nat → Int

/-- `mds_chunk_upload_callback_t`: `(uri, auth_header, chunk_data,
chunk_len, user_data) → int`.  The opaque `user_data` pointer is a `Nat`
tag. -/
def mds_chunk_upload_callback : Type :=
  List Nat → List Nat → List Nat → Nat → Nat → Int

/-- `struct mds_session` from mds_protocol.c. -/
structure mds_session where
  backend : Option mds_backend
  last_sequence : Nat
  streaming_enabled : Bool
  upload_callback : Option mds_chunk_upload_callback
  upload_user_data : Nat

/-! ## Backend dispatch (mds_backend.h) -/

/-- `mds_backend_read`; a NULL backend fails an assert in C, modelled as
`-EFAULT` (no theorem depends on that branch). -/
def mds_backend_read (backend : Option mds_backend) (report_id max_len : Nat)
    (timeout_ms : Int) : Except Int (List Nat) :=
  match backend with
  | none => .error (-EFAULT)
  | some b => b.read report_id max_len timeout_ms

/-- `mds_backend_write`; NULL backend as in `mds_backend_read`. -/
def mds_backend_write (backend : Option mds_backend) (report_id : Nat)
    (buffer : List Nat) : Int :=
  match backend with
  | none => -EFAULT
  | some b => b.write report_id buffer

/-! ## Internal helpers (mds_protocol.c) -/

/-- `mds_extract_sequence`: `byte0 & MDS_SEQUENCE_MASK`. -/
def mds_extract_sequence (byte0 : Nat) : Nat :=
  Nat.land byte0 MDS_SEQUENCE_MASK

/-- `mds_validate_sequence`: new sequence valid iff it equals
`(prev_seq + 1) & MDS_SEQUENCE_MASK`. -/
def mds_validate_sequence (prev_seq new_seq : Nat) : Bool :=
  let expected := Nat.land (prev_seq + 1) MDS_SEQUENCE_MASK
  new_seq == expected

/-- `mds_parse_stream_packet`.  The NULL-buffer check is the `none` case;
the out-packet pointer is always supplied in this model, so its NULL check
is dropped. -/
def mds_parse_stream_packet (buffer : Option (List Nat)) :
    Except Int mds_stream_packet :=
  match buffer with
  | none => .error (-EINVAL)
  | some buf =>
    if buf.length < 1 then
      .error (-EINVAL)
    else
      let sequence := mds_extract_sequence (buf.headD 0)
      let raw_len := buf.length - 1
      let data_len :=
        if raw_len > MDS_MAX_CHUNK_DATA_LEN then MDS_MAX_CHUNK_DATA_LEN
        else raw_len
      .ok {
        sequence := sequence,
        data := (buf.drop 1).take data_len,
        data_len := data_len }

/-! ## Session management -/

/-- `mds_session_create`.  `session_out_valid` models whether the
`mds_session_t **session` out-pointer is non-NULL; the backend may be NULL
(`none`) for external I/O.  `calloc` is assumed to succeed. -/
def mds_session_create (backend : Option mds_backend)
    (session_out_valid : Bool) : Except Int mds_session :=
  if session_out_valid = false then
    .error (-EINVAL)
  else
    .ok {
      backend := backend,
      last_sequence := MDS_SEQUENCE_MAX,
      streaming_enabled := false,
      upload_callback := none,
      upload_user_data := 0 }

/-- Events observable during `mds_session_destroy`. -/
inductive DestroyEvent where
  | disableStreamingAttempt
  | backendRelease (id : Nat)
  | freeSession
deriving Repr, DecidableEq

/-- `mds_session_destroy`: best-effort stream disable when enabled (its
result is ignored: no event depends on the backend's `write`), release of
the owned backend, free of the session.  The function is total (`void`). -/
def mds_session_destroy (session : Option mds_session) : List DestroyEvent :=
  match session with
  | none => []
  | some s =>
    (if s.streaming_enabled then [DestroyEvent.disableStreamingAttempt]
     else [])
      ++ (match s.backend with
          | some b => [DestroyEvent.backendRelease b.id]
          | none => [])
      ++ [DestroyEvent.freeSession]

/-! ## Device configuration -/

/-- `mds_get_supported_features`: 4-byte read at report 0x01, little-endian
decode; a short read is `-EINVAL`. -/
def mds_get_supported_features (session : mds_session) : Except Int Nat :=
  match mds_backend_read session.backend MDS_REPORT_ID_SUPPORTED_FEATURES
      4 (-1) with
  | .error e => .error e
  | .ok data =>
    if data.length < 4 then
      .error (-EINVAL)
    else
      .ok (Nat.lor (data.getD 0 0)
        (Nat.lor (Nat.shiftLeft (data.getD 1 0) 8)
          (Nat.lor (Nat.shiftLeft (data.getD 2 0) 16)
            (Nat.shiftLeft (data.getD 3 0) 24))))

/-- `mds_get_device_identifier`: read at report 0x02, truncate to the
destination size, null-terminated (the terminator is implicit in the list
model). -/
def mds_get_device_identifier (session : mds_session) (max_len : Nat) :
    Except Int (List Nat) :=
  if max_len == 0 then .error (-EINVAL)
  else
    match mds_backend_read session.backend MDS_REPORT_ID_DEVICE_IDENTIFIER
        MDS_MAX_DEVICE_ID_LEN (-1) with
    | .error e => .error e
    | .ok data =>
      let copy_len := if data.length < max_len then data.length
                      else max_len - 1
      .ok (data.take copy_len)

/-- `mds_get_data_uri`: read at report 0x03, truncate as above. -/
def mds_get_data_uri (session : mds_session) (max_len : Nat) :
    Except Int (List Nat) :=
  if max_len == 0 then .error (-EINVAL)
  else
    match mds_backend_read session.backend MDS_REPORT_ID_DATA_URI
        MDS_MAX_URI_LEN (-1) with
    | .error e => .error e
    | .ok data =>
      let copy_len := if data.length < max_len then data.length
                      else max_len - 1
      .ok (data.take copy_len)

/-- `mds_get_authorization`: read at report 0x04, truncate as above. -/
def mds_get_authorization (session : mds_session) (max_len : Nat) :
    Except Int (List Nat) :=
  if max_len == 0 then .error (-EINVAL)
  else
    match mds_backend_read session.backend MDS_REPORT_ID_AUTHORIZATION
        MDS_MAX_AUTH_LEN (-1) with
    | .error e => .error e
    | .ok data =>
      let copy_len := if data.length < max_len then data.length
                      else max_len - 1
      .ok (data.take copy_len)

/-- `mds_read_device_config`: the four reads in source order, aborting on
the first failure.  The second component records, in order, the report ids
whose read was attempted (each getter performs exactly one backend read at
its fixed id). -/
def mds_read_device_config (session : mds_session) :
    Except Int mds_device_config × List Nat :=
  match mds_get_supported_features session with
  | .error e => (.error e, [MDS_REPORT_ID_SUPPORTED_FEATURES])
  | .ok supported_features =>
    match mds_get_device_identifier session MDS_MAX_DEVICE_ID_LEN with
    | .error e => (.error e, [MDS_REPORT_ID_SUPPORTED_FEATURES,
        MDS_REPORT_ID_DEVICE_IDENTIFIER])
    | .ok device_identifier =>
      match mds_get_data_uri session MDS_MAX_URI_LEN with
      | .error e => (.error e, [MDS_REPORT_ID_SUPPORTED_FEATURES,
          MDS_REPORT_ID_DEVICE_IDENTIFIER, MDS_REPORT_ID_DATA_URI])
      | .ok data_uri =>
        match mds_get_authorization session MDS_MAX_AUTH_LEN with
        | .error e => (.error e, [MDS_REPORT_ID_SUPPORTED_FEATURES,
            MDS_REPORT_ID_DEVICE_IDENTIFIER, MDS_REPORT_ID_DATA_URI,
            MDS_REPORT_ID_AUTHORIZATION])
        | .ok authorization =>
          (.ok {
            supported_features := supported_features,
            device_identifier := device_identifier,
            data_uri := data_uri,
            authorization := authorization },
           [MDS_REPORT_ID_SUPPORTED_FEATURES,
            MDS_REPORT_ID_DEVICE_IDENTIFIER, MDS_REPORT_ID_DATA_URI,
            MDS_REPORT_ID_AUTHORIZATION])

/-! ## Stream control -/

/-- `mds_stream_enable`: write `[MDS_STREAM_MODE_ENABLED]` at report 0x05;
on success set `streaming_enabled`.  The pair is (return value, resulting
session). -/
def mds_stream_enable (session : mds_session) : Int × mds_session :=
  let ret := mds_backend_write session.backend MDS_REPORT_ID_STREAM_CONTROL
    [MDS_STREAM_MODE_ENABLED]
  if ret < 0 then (ret, session)
  else (0, { session with streaming_enabled := true })

/-- `mds_stream_disable`: write `[MDS_STREAM_MODE_DISABLED]` at report
0x05; on success clear `streaming_enabled`. -/
def mds_stream_disable (session : mds_session) : Int × mds_session :=
  let ret := mds_backend_write session.backend MDS_REPORT_ID_STREAM_CONTROL
    [MDS_STREAM_MODE_DISABLED]
  if ret < 0 then (ret, session)
  else (0, { session with streaming_enabled := false })

/-! ## Stream data reception and processing -/

/-- `mds_stream_read_packet`: read the stream-data report (at most
`MDS_MAX_CHUNK_DATA_LEN + 1` bytes), parse it, and update the session's
`last_sequence` to the parsed sequence. -/
def mds_stream_read_packet (session : mds_session) (timeout_ms : Int) :
    Except Int (mds_session × mds_stream_packet) :=
  match mds_backend_read session.backend MDS_REPORT_ID_STREAM_DATA
      (MDS_MAX_CHUNK_DATA_LEN + 1) timeout_ms with
  | .error e => .error e
  | .ok data =>
    match mds_parse_stream_packet (some data) with
    | .error e => .error e
    | .ok packet =>
      .ok ({ session with last_sequence := packet.sequence }, packet)

/-- `mds_set_upload_callback`. -/
def mds_set_upload_callback (session : mds_session)
    (callback : Option mds_chunk_upload_callback) (user_data : Nat) :
    Int × mds_session :=
  (0, { session with
        upload_callback := callback,
        upload_user_data := user_data })

/-- Result of `mds_process_packet_common`: the mutated session, the C
return value, and a trace of the observable effects — whether sequence
validation was performed at all (it is skipped when `last_sequence` holds
the sentinel), whether the stderr sequence warning fired, and the
argument tuples of the upload-callback invocations. -/
structure ProcessResult where
  session : mds_session
  ret : Int
  validation_performed : Bool
  seq_warning : Bool
  upload_calls : List (List Nat × List Nat × List Nat × Nat × Nat)

/-- `mds_process_packet_common`: validate the sequence when
`last_sequence` is not the sentinel (non-fatal: a failure only emits the
warning), always update `last_sequence`, then invoke the upload callback
if one is set, propagating a negative callback result. -/
def mds_process_packet_common (session : mds_session)
    (config : mds_device_config) (pkt : mds_stream_packet) : ProcessResult :=
  let validation_performed := session.last_sequence != MDS_SEQUENCE_MAX
  let seq_warning := validation_performed
    && !(mds_validate_sequence session.last_sequence pkt.sequence)
  let s1 := { session with last_sequence := pkt.sequence }
  match session.upload_callback with
  | none =>
    { session := s1,
      ret := 0,
      validation_performed := validation_performed,
      seq_warning := seq_warning,
      upload_calls := [] }
  | some cb =>
    let r := cb config.data_uri config.authorization pkt.data pkt.data_len
      session.upload_user_data
    { session := s1,
      ret := if r < 0 then r else 0,
      validation_performed := validation_performed,
      seq_warning := seq_warning,
      upload_calls := [(config.data_uri, config.authorization, pkt.data,
        pkt.data_len, session.upload_user_data)] }

/-- `mds_process_stream`: backend-pull entry point. -/
def mds_process_stream (session : mds_session)
    (config : mds_device_config) (timeout_ms : Int) :
    Except Int ProcessResult :=
  match mds_stream_read_packet session timeout_ms with
  | .error e => .error e
  | .ok (s1, pkt) => .ok (mds_process_packet_common s1 config pkt)

/-- `mds_process_stream_from_bytes`: bytes-push entry point. -/
def mds_process_stream_from_bytes (session : mds_session)
    (config : mds_device_config) (buffer : Option (List Nat)) :
    Except Int ProcessResult :=
  match buffer with
  | none => .error (-EINVAL)
  | some buf =>
    match mds_parse_stream_packet (some buf) with
    | .error e => .error e
    | .ok pkt => .ok (mds_process_packet_common session config pkt)

/-! ## Concrete fixtures for witnesses and counterexamples -/

/-- A backend whose reads deliver the stream bytes [0x06, 0xAA] and whose
writes succeed (returning count 1). -/
def readBackend : mds_backend := {
  id := 7,
  read := fun _ _ _ => .ok [0x06, 0xAA],
  write := fun _ _ => 1 }

/-- A backend whose reads and writes all fail with -5 (EIO). -/
def failBackend : mds_backend := {
  id := 9,
  read := fun _ _ _ => .error (-5),
  write := fun _ _ => -5 }

/-- A session that has already processed a packet with sequence 5. -/
def sess5 : mds_session := {
  backend := some readBackend,
  last_sequence := 5,
  streaming_enabled := false,
  upload_callback := none,
  upload_user_data := 0 }

/-- A sample device configuration. -/
def cfg0 : mds_device_config := {
  supported_features := 0,
  device_identifier := [0x4D],
  data_uri := [0x68, 0x74, 0x74, 0x70],
  authorization := [0x4B, 0x3A, 0x56] }

/-- The packet parsed from the bytes [0x06, 0xAA]. -/
def pkt6 : mds_stream_packet := {
  sequence := 6,
  data := [0xAA],
  data_len := 1 }

/-- A packet carrying the sentinel-colliding sequence 31. -/
def pkt31 : mds_stream_packet := {
  sequence := 31,
  data := [],
  data_len := 0 }

/-- An upload hook returning the positive value 1. -/
def posHook : mds_chunk_upload_callback := fun _ _ _ _ _ => 1

/-- A session with the positive-returning hook installed. -/
def posHookSession : mds_session := {
  backend := none,
  last_sequence := MDS_SEQUENCE_MAX,
  streaming_enabled := false,
  upload_callback := some posHook,
  upload_user_data := 3 }

/-- An upload hook failing with -7. -/
def failHook : mds_chunk_upload_callback := fun _ _ _ _ _ => -7

/-- A session with the failing hook installed and real sequence history. -/
def failHookSession : mds_session := {
  backend := some readBackend,
  last_sequence := 9,
  streaming_enabled := false,
  upload_callback := some failHook,
  upload_user_data := 4 }

/-- A session on the failing backend with streaming enabled. -/
def failSess : mds_session := {
  backend := some failBackend,
  last_sequence := MDS_SEQUENCE_MAX,
  streaming_enabled := true,
  upload_callback := none,
  upload_user_data := 0 }

/-! ## Helper lemmas -/

/-- Masking with `MDS_SEQUENCE_MASK` (0x1F) is reduction mod 32. -/
theorem land_mask_eq_mod (x : Nat) : Nat.land x MDS_SEQUENCE_MASK = x % 32 := by
  have h := Nat.and_pow_two_sub_one_eq_mod x 5
  norm_num at h
  exact h

theorem process_common_session (s : mds_session) (cfg : mds_device_config)
    (pkt : mds_stream_packet) :
    (mds_process_packet_common s cfg pkt).session =
      { s with last_sequence := pkt.sequence } := by
  cases hcb : s.upload_callback <;> simp [mds_process_packet_common, hcb]

theorem process_common_validation_performed (s : mds_session)
    (cfg : mds_device_config) (pkt : mds_stream_packet) :
    (mds_process_packet_common s cfg pkt).validation_performed =
      (s.last_sequence != MDS_SEQUENCE_MAX) := by
  cases hcb : s.upload_callback <;> simp [mds_process_packet_common, hcb]

theorem process_common_seq_warning (s : mds_session)
    (cfg : mds_device_config) (pkt : mds_stream_packet) :
    (mds_process_packet_common s cfg pkt).seq_warning =
      ((s.last_sequence != MDS_SEQUENCE_MAX)
        && !(mds_validate_sequence s.last_sequence pkt.sequence)) := by
  cases hcb : s.upload_callback <;> simp [mds_process_packet_common, hcb]

theorem process_common_ret (s : mds_session) (cfg : mds_device_config)
    (pkt : mds_stream_packet) :
    (mds_process_packet_common s cfg pkt).ret =
      (match s.upload_callback with
       | none => 0
       | some cb =>
         let r := cb cfg.data_uri cfg.authorization pkt.data pkt.data_len
           s.upload_user_data
         if r < 0 then r else 0) := by
  cases hcb : s.upload_callback <;> simp [mds_process_packet_common, hcb]

theorem process_common_upload_calls (s : mds_session)
    (cfg : mds_device_config) (pkt : mds_stream_packet) :
    (mds_process_packet_common s cfg pkt).upload_calls =
      (match s.upload_callback with
       | none => []
       | some _ => [(cfg.data_uri, cfg.authorization, pkt.data,
           pkt.data_len, s.upload_user_data)]) := by
  cases hcb : s.upload_callback <;> simp [mds_process_packet_common, hcb]

/-- The shared post-processing step reads `last_sequence` only for the
validation trace: result value, resulting session and upload invocations
do not depend on the incoming `last_sequence`. -/
theorem process_common_ignore_last (s : mds_session)
    (cfg : mds_device_config) (pkt : mds_stream_packet) (x : Nat) :
    (mds_process_packet_common { s with last_sequence := x } cfg pkt).ret =
      (mds_process_packet_common s cfg pkt).ret ∧
    (mds_process_packet_common { s with last_sequence := x } cfg
      pkt).session = (mds_process_packet_common s cfg pkt).session ∧
    (mds_process_packet_common { s with last_sequence := x } cfg
      pkt).upload_calls =
      (mds_process_packet_common s cfg pkt).upload_calls := by
  cases hcb : s.upload_callback <;> simp [mds_process_packet_common, hcb]

/-! ## Claims -/

/-- C1: for all sequence values `prev` and `nxt` in 0..31, the validator
accepts `nxt` iff `nxt = (prev + 1) % 32` (a pure function of the two byte
values); the wraparound pairs (30,31), (31,0), (0,1) are valid, while the
gap (5,7) and the duplicate (10,10) are invalid. -/
theorem C1_validate_sequence_iff_succ_mod32 :
    (∀ prev, prev < 32 → ∀ nxt, nxt < 32 →
      (mds_validate_sequence prev nxt = true ↔ nxt = (prev + 1) % 32)) ∧
    mds_validate_sequence 30 31 = true ∧
    mds_validate_sequence 31 0 = true ∧
    mds_validate_sequence 0 1 = true ∧
    mds_validate_sequence 5 7 = false ∧
    mds_validate_sequence 10 10 = false := by
  refine ⟨fun prev _ nxt _ => ?_, rfl, rfl, rfl, rfl, rfl⟩
  simp [mds_validate_sequence, land_mask_eq_mod]

/-- Witness for C1 at the wraparound pair (31, 0). -/
theorem C1_validate_sequence_witness :
    mds_validate_sequence 31 0 = true ↔ 0 = (31 + 1) % 32 :=
  C1_validate_sequence_iff_succ_mod32.1 31 (by decide) 0 (by decide)

/-- C5: decoding a buffer of length at least 1 yields sequence =
byte0 mod 32 (bits 5–7 ignored) and payload = the min(n−1, 63) bytes after
byte 0; `[0x03, 0xAA, 0xBB]` decodes to sequence 3, payload `[0xAA, 0xBB]`,
length 2; an empty or NULL buffer fails with `-EINVAL` and produces no
packet. -/
theorem C5_parse_stream_packet_spec :
    (∀ buf : List Nat, 1 ≤ buf.length →
      mds_parse_stream_packet (some buf) =
        .ok {
          sequence := buf.headD 0 % 32,
          data := (buf.drop 1).take (min (buf.length - 1) 63),
          data_len := min (buf.length - 1) 63 }) ∧
    mds_parse_stream_packet (some [0x03, 0xAA, 0xBB]) =
      .ok { sequence := 3, data := [0xAA, 0xBB], data_len := 2 } ∧
    mds_parse_stream_packet (some []) = .error (-EINVAL) ∧
    mds_parse_stream_packet none = .error (-EINVAL) := by
  refine ⟨fun buf h => ?_, rfl, rfl, rfl⟩
  have hmin : (if buf.length - 1 > MDS_MAX_CHUNK_DATA_LEN
      then MDS_MAX_CHUNK_DATA_LEN else buf.length - 1) =
      min (buf.length - 1) 63 := by
    simp only [MDS_MAX_CHUNK_DATA_LEN]
    split <;> omega
  simp only [mds_parse_stream_packet, mds_extract_sequence, hmin,
    land_mask_eq_mod]
  rw [if_neg (by omega)]

/-- Witness for C5 at the concrete buffer [0x45, 0x01, 0x02]. -/
theorem C5_parse_stream_packet_witness :
    mds_parse_stream_packet (some [0x45, 0x01, 0x02]) =
      .ok {
        sequence := [0x45, 0x01, 0x02].headD 0 % 32,
        data := ([0x45, 0x01, 0x02].drop 1).take
          (min ([0x45, 0x01, 0x02].length - 1) 63),
        data_len := min ([0x45, 0x01, 0x02].length - 1) 63 } :=
  C5_parse_stream_packet_spec.1 [0x45, 0x01, 0x02] (by decide)

/-- C3: sequence validation is skipped exactly when `last_sequence` holds
the sentinel 31: a freshly created session (initialized to 31) has its
first packet accepted without validation, and after a packet whose
sequence is 31 the next packet is likewise processed without validation,
regardless of its own sequence number. -/
theorem C3_sentinel_skips_validation :
    (∀ s cfg pkt,
      ((mds_process_packet_common s cfg pkt).validation_performed = false ↔
        s.last_sequence = MDS_SEQUENCE_MAX)) ∧
    (∀ bk s, mds_session_create bk true = .ok s →
      ∀ cfg pkt,
        (mds_process_packet_common s cfg pkt).validation_performed =
          false) ∧
    (∀ s cfg pkt, pkt.sequence = 31 →
      ∀ cfg2 pkt2,
        (mds_process_packet_common
          (mds_process_packet_common s cfg pkt).session cfg2
          pkt2).validation_performed = false) := by
  refine ⟨fun s cfg pkt => ?_, fun bk s h cfg pkt => ?_,
    fun s cfg pkt h cfg2 pkt2 => ?_⟩
  · rw [process_common_validation_performed]
    simp
  · have h2 : ({
        backend := bk,
        last_sequence := MDS_SEQUENCE_MAX,
        streaming_enabled := false,
        upload_callback := none,
        upload_user_data := 0 } : mds_session) = s := Except.ok.inj h
    subst h2
    rfl
  · rw [process_common_validation_performed, process_common_session]
    simp [h, MDS_SEQUENCE_MAX]

/-- Witness for C3: a session that just processed a sequence-31 packet
skips validation on the next packet. -/
theorem C3_sentinel_witness :
    (mds_process_packet_common
      (mds_process_packet_common sess5 cfg0 pkt31).session cfg0
      pkt6).validation_performed = false :=
  C3_sentinel_skips_validation.2.2 sess5 cfg0 pkt31 rfl cfg0 pkt6

/-- C4: whenever a processing call's packet parse succeeds, the session's
`last_sequence` is set to the parsed packet's sequence — including when
the sequence check warns (gap/duplicate is non-fatal) and when the upload
hook fails (the error is returned but tracking has advanced). -/
theorem C4_last_sequence_advances :
    (∀ s cfg pkt,
      (mds_process_packet_common s cfg pkt).session.last_sequence =
        pkt.sequence) ∧
    (∀ s cfg t res bytes pkt,
      mds_backend_read s.backend MDS_REPORT_ID_STREAM_DATA
        (MDS_MAX_CHUNK_DATA_LEN + 1) t = .ok bytes →
      mds_parse_stream_packet (some bytes) = .ok pkt →
      mds_process_stream s cfg t = .ok res →
      res.session.last_sequence = pkt.sequence) ∧
    (∀ s cfg buf res pkt,
      mds_parse_stream_packet (some buf) = .ok pkt →
      mds_process_stream_from_bytes s cfg (some buf) = .ok res →
      res.session.last_sequence = pkt.sequence) ∧
    (∀ s cfg pkt, (mds_process_packet_common s cfg pkt).seq_warning = true →
      (mds_process_packet_common s cfg pkt).session.last_sequence =
        pkt.sequence) ∧
    (∀ s cfg pkt, (mds_process_packet_common s cfg pkt).ret < 0 →
      (mds_process_packet_common s cfg pkt).session.last_sequence =
        pkt.sequence) := by
  have hbase : ∀ s cfg pkt,
      (mds_process_packet_common s cfg pkt).session.last_sequence =
        pkt.sequence := by
    intro s cfg pkt
    rw [process_common_session]
  refine ⟨hbase, ?_, ?_, fun s cfg pkt _ => hbase s cfg pkt,
    fun s cfg pkt _ => hbase s cfg pkt⟩
  · intro s cfg t res bytes pkt h1 h2 h3
    simp only [mds_process_stream, mds_stream_read_packet, h1, h2,
      Except.ok.injEq] at h3
    subst h3
    exact hbase _ cfg pkt
  · intro s cfg buf res pkt h1 h2
    simp only [mds_process_stream_from_bytes, h1, Except.ok.injEq] at h2
    subst h2
    exact hbase s cfg pkt

/-- Witness for C4: a session whose sequence check warns (previous 9, new
6 is a gap) still advances its sequence to the packet's value. -/
theorem C4_last_sequence_witness :
    (mds_process_packet_common failHookSession cfg0
      pkt6).session.last_sequence = pkt6.sequence :=
  C4_last_sequence_advances.2.2.2.1 failHookSession cfg0 pkt6 rfl

/-- C10: `mds_session_create` accepts a NULL backend and still succeeds,
yielding a session at the sentinel with streaming disabled, usable by the
bytes-push path; it returns `-EINVAL` exactly when the session out-pointer
is NULL, in which case no session is produced. -/
theorem C10_session_create_null_backend :
    (mds_session_create none true = .ok {
      backend := none,
      last_sequence := MDS_SEQUENCE_MAX,
      streaming_enabled := false,
      upload_callback := none,
      upload_user_data := 0 }) ∧
    (∀ bk v, mds_session_create bk v = .error (-EINVAL) ↔ v = false) ∧
    (∀ s, mds_session_create none true = .ok s →
      ∀ cfg, mds_process_stream_from_bytes s cfg
        (some [0x03, 0xAA, 0xBB]) = .ok {
          session := { s with last_sequence := 3 },
          ret := 0,
          validation_performed := false,
          seq_warning := false,
          upload_calls := [] }) := by
  refine ⟨rfl, fun bk v => ?_, fun s h cfg => ?_⟩
  · cases v <;> simp [mds_session_create]
  · have h2 : ({
        backend := none,
        last_sequence := MDS_SEQUENCE_MAX,
        streaming_enabled := false,
        upload_callback := none,
        upload_user_data := 0 } : mds_session) = s := Except.ok.inj h
    subst h2
    rfl

/-- Witness for C10: the session created without a backend processes
pushed bytes. -/
theorem C10_session_create_witness :
    mds_process_stream_from_bytes {
      backend := none,
      last_sequence := MDS_SEQUENCE_MAX,
      streaming_enabled := false,
      upload_callback := none,
      upload_user_data := 0 } cfg0 (some [0x03, 0xAA, 0xBB]) = .ok {
        session := {
          backend := none,
          last_sequence := 3,
          streaming_enabled := false,
          upload_callback := none,
          upload_user_data := 0 },
        ret := 0,
        validation_performed := false,
        seq_warning := false,
        upload_calls := [] } :=
  C10_session_create_null_backend.2.2 _ rfl cfg0

/-- C6 counterexample: with an upload hook installed that returns the
non-zero (positive) value 1, the processing result is 0 (success) — the
non-zero hook result is not surfaced to the caller as a failure, refuting
the claim that any non-zero result is. -/
theorem C6_counterexample_positive_hook :
    posHook cfg0.data_uri cfg0.authorization pkt6.data pkt6.data_len
      posHookSession.upload_user_data = 1 ∧
    posHookSession.upload_callback = some posHook ∧
    (mds_process_packet_common posHookSession cfg0 pkt6).ret = 0 :=
  ⟨rfl, rfl, rfl⟩

/-- C6 (amended): if an upload hook is set, the shared post-processing
invokes it exactly once per parsed packet with arguments (config.dataUri,
config.authorization, packet.payload, packet.length, context); a negative
hook result is propagated as the call's own result (a failure the caller
sees), while a non-negative result yields success 0; if no hook is set the
call succeeds with no upload. -/
theorem C6_upload_hook_invocation :
    (∀ s cfg pkt cb, s.upload_callback = some cb →
      (mds_process_packet_common s cfg pkt).upload_calls =
        [(cfg.data_uri, cfg.authorization, pkt.data, pkt.data_len,
          s.upload_user_data)] ∧
      (∀ r, cb cfg.data_uri cfg.authorization pkt.data pkt.data_len
          s.upload_user_data = r →
        (r < 0 → (mds_process_packet_common s cfg pkt).ret = r) ∧
        (0 ≤ r → (mds_process_packet_common s cfg pkt).ret = 0))) ∧
    (∀ s cfg pkt, s.upload_callback = none →
      (mds_process_packet_common s cfg pkt).ret = 0 ∧
      (mds_process_packet_common s cfg pkt).upload_calls = []) := by
  constructor
  · intro s cfg pkt cb hcb
    refine ⟨?_, fun r hr => ⟨fun hneg => ?_, fun hpos => ?_⟩⟩
    · rw [process_common_upload_calls, hcb]
    · rw [process_common_ret, hcb]
      simp only [hr]
      rw [if_pos hneg]
    · rw [process_common_ret, hcb]
      simp only [hr]
      rw [if_neg (not_lt.mpr hpos)]
  · intro s cfg pkt hcb
    exact ⟨by rw [process_common_ret, hcb],
      by rw [process_common_upload_calls, hcb]⟩

/-- Witness for C6 (amended): the failing hook (-7) is invoked once with
the configured arguments and its error is the call's result. -/
theorem C6_upload_hook_witness :
    (mds_process_packet_common failHookSession cfg0 pkt6).upload_calls =
      [(cfg0.data_uri, cfg0.authorization, pkt6.data, pkt6.data_len,
        failHookSession.upload_user_data)] ∧
    (mds_process_packet_common failHookSession cfg0 pkt6).ret = -7 := by
  have h := C6_upload_hook_invocation.1 failHookSession cfg0 pkt6 failHook rfl
  exact ⟨h.1, (h.2 (-7) rfl).1 (by norm_num)⟩

/-- C7: `mds_stream_enable` writes the single byte 1 (`mds_stream_disable`
the byte 0) at the stream-control report id; on write success it sets
(resp. clears) `streaming_enabled` and returns 0, and on write failure it
returns the backend's error with the session — hence
`streaming_enabled` — unchanged. -/
theorem C7_stream_control :
    ∀ s b, s.backend = some b →
      (∀ r, b.write MDS_REPORT_ID_STREAM_CONTROL
          [MDS_STREAM_MODE_ENABLED] = r →
        (r < 0 → mds_stream_enable s = (r, s)) ∧
        (0 ≤ r → mds_stream_enable s =
          (0, { s with streaming_enabled := true }))) ∧
      (∀ r, b.write MDS_REPORT_ID_STREAM_CONTROL
          [MDS_STREAM_MODE_DISABLED] = r →
        (r < 0 → mds_stream_disable s = (r, s)) ∧
        (0 ≤ r → mds_stream_disable s =
          (0, { s with streaming_enabled := false }))) := by
  intro s b hb
  constructor
  · intro r hr
    refine ⟨fun hneg => ?_, fun hpos => ?_⟩
    · simp only [mds_stream_enable, mds_backend_write, hb, hr]
      rw [if_pos hneg]
    · simp only [mds_stream_enable, mds_backend_write, hb, hr]
      rw [if_neg (not_lt.mpr hpos)]
  · intro r hr
    refine ⟨fun hneg => ?_, fun hpos => ?_⟩
    · simp only [mds_stream_disable, mds_backend_write, hb, hr]
      rw [if_pos hneg]
    · simp only [mds_stream_disable, mds_backend_write, hb, hr]
      rw [if_neg (not_lt.mpr hpos)]

/-- Witness for C7: enabling on a succeeding backend sets the flag, and
on a failing backend surfaces the write error unchanged. -/
theorem C7_stream_control_witness :
    mds_stream_enable sess5 = (0, { sess5 with streaming_enabled := true }) ∧
    mds_stream_enable failSess = (-5, failSess) :=
  ⟨((C7_stream_control sess5 readBackend rfl).1 1 rfl).2 (by norm_num),
   ((C7_stream_control failSess failBackend rfl).1 (-5) rfl).1 (by norm_num)⟩

/-- C8: `mds_read_device_config` performs its four backend reads in source
order (features 0x01, identifier 0x02, URI 0x03, authorization 0x04), each
at its fixed report id; the first failure aborts the whole decode — the
remaining reads are not attempted — and that read's error is returned
verbatim, without wrapping or retrying. -/
theorem C8_read_device_config_order :
    ∀ s b, s.backend = some b →
      (∀ e : Int, b.read MDS_REPORT_ID_SUPPORTED_FEATURES 4 (-1) =
          .error e →
        mds_read_device_config s =
          (.error e, [MDS_REPORT_ID_SUPPORTED_FEATURES])) ∧
      (∀ feats e, mds_get_supported_features s = .ok feats →
        b.read MDS_REPORT_ID_DEVICE_IDENTIFIER MDS_MAX_DEVICE_ID_LEN
          (-1) = .error e →
        mds_read_device_config s =
          (.error e, [MDS_REPORT_ID_SUPPORTED_FEATURES,
            MDS_REPORT_ID_DEVICE_IDENTIFIER])) ∧
      (∀ feats did e, mds_get_supported_features s = .ok feats →
        mds_get_device_identifier s MDS_MAX_DEVICE_ID_LEN = .ok did →
        b.read MDS_REPORT_ID_DATA_URI MDS_MAX_URI_LEN (-1) = .error e →
        mds_read_device_config s =
          (.error e, [MDS_REPORT_ID_SUPPORTED_FEATURES,
            MDS_REPORT_ID_DEVICE_IDENTIFIER, MDS_REPORT_ID_DATA_URI])) ∧
      (∀ feats did uri e, mds_get_supported_features s = .ok feats →
        mds_get_device_identifier s MDS_MAX_DEVICE_ID_LEN = .ok did →
        mds_get_data_uri s MDS_MAX_URI_LEN = .ok uri →
        b.read MDS_REPORT_ID_AUTHORIZATION MDS_MAX_AUTH_LEN (-1) =
          .error e →
        mds_read_device_config s =
          (.error e, [MDS_REPORT_ID_SUPPORTED_FEATURES,
            MDS_REPORT_ID_DEVICE_IDENTIFIER, MDS_REPORT_ID_DATA_URI,
            MDS_REPORT_ID_AUTHORIZATION])) ∧
      (∀ feats did uri auth, mds_get_supported_features s = .ok feats →
        mds_get_device_identifier s MDS_MAX_DEVICE_ID_LEN = .ok did →
        mds_get_data_uri s MDS_MAX_URI_LEN = .ok uri →
        mds_get_authorization s MDS_MAX_AUTH_LEN = .ok auth →
        mds_read_device_config s =
          (.ok {
            supported_features := feats,
            device_identifier := did,
            data_uri := uri,
            authorization := auth },
           [MDS_REPORT_ID_SUPPORTED_FEATURES,
            MDS_REPORT_ID_DEVICE_IDENTIFIER, MDS_REPORT_ID_DATA_URI,
            MDS_REPORT_ID_AUTHORIZATION])) := by
  intro s b hb
  refine ⟨fun e he => ?_, fun feats e h1 he => ?_,
    fun feats did e h1 h2 he => ?_, fun feats did uri e h1 h2 h3 he => ?_,
    fun feats did uri auth h1 h2 h3 h4 => ?_⟩
  · have hf : mds_get_supported_features s = .error e := by
      simp [mds_get_supported_features, mds_backend_read, hb, he]
    simp [mds_read_device_config, hf]
  · have hB : mds_get_device_identifier s MDS_MAX_DEVICE_ID_LEN =
        .error e := by
      simp only [MDS_MAX_DEVICE_ID_LEN] at he
      simp [mds_get_device_identifier, mds_backend_read, hb, he,
        MDS_MAX_DEVICE_ID_LEN]
    simp [mds_read_device_config, h1, hB]
  · have hB : mds_get_data_uri s MDS_MAX_URI_LEN = .error e := by
      simp only [MDS_MAX_URI_LEN] at he
      simp [mds_get_data_uri, mds_backend_read, hb, he, MDS_MAX_URI_LEN]
    simp [mds_read_device_config, h1, h2, hB]
  · have hB : mds_get_authorization s MDS_MAX_AUTH_LEN = .error e := by
      simp only [MDS_MAX_AUTH_LEN] at he
      simp [mds_get_authorization, mds_backend_read, hb, he,
        MDS_MAX_AUTH_LEN]
    simp [mds_read_device_config, h1, h2, h3, hB]
  · simp [mds_read_device_config, h1, h2, h3, h4]

/-- Witness for C8: on the failing backend the first read's error -5 is
returned and only report 0x01 was attempted. -/
theorem C8_read_device_config_witness :
    mds_read_device_config failSess =
      (.error (-5), [MDS_REPORT_ID_SUPPORTED_FEATURES]) :=
  (C8_read_device_config_order failSess failBackend rfl).1 (-5) rfl

/-- C9: `mds_session_destroy` never fails (it is total); it attempts the
best-effort stream disable exactly when streaming is enabled and its event
trace is independent of the disable's outcome (the backend's `write` is
never consulted); it releases the session's backend exactly once, releases
no other backend, and always ends by freeing the session. -/
theorem C9_session_destroy :
    ∀ s b, s.backend = some b →
      mds_session_destroy (some s) =
        (if s.streaming_enabled then
          [DestroyEvent.disableStreamingAttempt] else []) ++
          [DestroyEvent.backendRelease b.id, DestroyEvent.freeSession] ∧
      (mds_session_destroy (some s)).count
        (DestroyEvent.backendRelease b.id) = 1 ∧
      (∀ n, n ≠ b.id → (mds_session_destroy (some s)).count
        (DestroyEvent.backendRelease n) = 0) ∧
      (mds_session_destroy (some s)).getLast? =
        some DestroyEvent.freeSession := by
  intro s b hb
  have hform : mds_session_destroy (some s) =
      (if s.streaming_enabled then
        [DestroyEvent.disableStreamingAttempt] else []) ++
        [DestroyEvent.backendRelease b.id, DestroyEvent.freeSession] := by
    simp [mds_session_destroy, hb]
  refine ⟨hform, ?_, fun n hn => ?_, ?_⟩
  · rw [hform]
    cases hs : s.streaming_enabled <;> simp [List.count_cons]
  · rw [hform]
    cases hs : s.streaming_enabled <;>
      simp [List.count_eq_zero, hn, Ne.symm hn]
  · rw [hform]
    cases hs : s.streaming_enabled <;> simp

/-- Witness for C9: destroying the streaming session on the failing
backend attempts the disable, releases backend 9 once, and frees. -/
theorem C9_session_destroy_witness :
    mds_session_destroy (some failSess) =
      [DestroyEvent.disableStreamingAttempt,
       DestroyEvent.backendRelease failBackend.id,
       DestroyEvent.freeSession] := by
  have h := (C9_session_destroy failSess failBackend rfl).1
  simpa [failSess] using h

/-- C2 counterexample: with previous sequence 5 and the backend delivering
exactly the in-order bytes [0x06, 0xAA], the backend-pull path emits the
sequence warning (it validates the new sequence against the
already-updated `last_sequence`), while the bytes-push path on the same
bytes validates against the true previous sequence 5 and accepts — the
two calls do not perform the same sequence-validation outcome against the
same previous sequence. -/
theorem C2_counterexample_validation_differs :
    mds_backend_read sess5.backend MDS_REPORT_ID_STREAM_DATA
      (MDS_MAX_CHUNK_DATA_LEN + 1) (-1) = .ok [0x06, 0xAA] ∧
    (mds_process_stream sess5 cfg0 (-1)).map
      (fun r => r.seq_warning) = .ok true ∧
    (mds_process_stream_from_bytes sess5 cfg0 (some [0x06, 0xAA])).map
      (fun r => r.seq_warning) = .ok false :=
  ⟨rfl, rfl, rfl⟩

/-- C2 (amended): when the backend read delivers exactly the given bytes,
the pull and push entry points agree on errors, on the returned result
value, on the final session (including the `last_sequence` update) and on
the upload-hook invocation; the sequence-validation outcome however
differs in general: the pull path validates the parsed sequence against
itself, because `mds_stream_read_packet` already updated `last_sequence`
before the shared post-processing runs, while the push path validates
against the session's previous `last_sequence`. -/
theorem C2_paths_agree_except_validation :
    ∀ s cfg t bytes b, s.backend = some b →
      b.read MDS_REPORT_ID_STREAM_DATA (MDS_MAX_CHUNK_DATA_LEN + 1) t =
        .ok bytes →
      (∀ e, mds_process_stream s cfg t = .error e ↔
        mds_process_stream_from_bytes s cfg (some bytes) = .error e) ∧
      (∀ r1 r2, mds_process_stream s cfg t = .ok r1 →
        mds_process_stream_from_bytes s cfg (some bytes) = .ok r2 →
        r1.ret = r2.ret ∧ r1.session = r2.session ∧
        r1.upload_calls = r2.upload_calls ∧
        (∀ pkt, mds_parse_stream_packet (some bytes) = .ok pkt →
          r1.validation_performed =
            (pkt.sequence != MDS_SEQUENCE_MAX) ∧
          r1.seq_warning = ((pkt.sequence != MDS_SEQUENCE_MAX) &&
            !(mds_validate_sequence pkt.sequence pkt.sequence)) ∧
          r2.validation_performed =
            (s.last_sequence != MDS_SEQUENCE_MAX) ∧
          r2.seq_warning = ((s.last_sequence != MDS_SEQUENCE_MAX) &&
            !(mds_validate_sequence s.last_sequence pkt.sequence)))) := by
  intro s cfg t bytes b hb hread
  cases hp : mds_parse_stream_packet (some bytes) with
  | error e0 =>
    have h1 : mds_process_stream s cfg t = .error e0 := by
      simp [mds_process_stream, mds_stream_read_packet, mds_backend_read,
        hb, hread, hp]
    have h2 : mds_process_stream_from_bytes s cfg (some bytes) =
        .error e0 := by
      simp [mds_process_stream_from_bytes, hp]
    refine ⟨fun e => ?_, fun r1 r2 hr1 hr2 => ?_⟩
    · rw [h1, h2]
    · rw [h1] at hr1
      simp at hr1
  | ok pkt0 =>
    have h1 : mds_process_stream s cfg t =
        .ok (mds_process_packet_common
          { s with last_sequence := pkt0.sequence } cfg pkt0) := by
      simp [mds_process_stream, mds_stream_read_packet, mds_backend_read,
        hb, hread, hp]
    have h2 : mds_process_stream_from_bytes s cfg (some bytes) =
        .ok (mds_process_packet_common s cfg pkt0) := by
      simp [mds_process_stream_from_bytes, hp]
    refine ⟨fun e => ?_, fun r1 r2 hr1 hr2 => ?_⟩
    · rw [h1, h2]
      simp
    · rw [h1] at hr1
      rw [h2] at hr2
      have e1 := Except.ok.inj hr1
      have e2 := Except.ok.inj hr2
      subst e1
      subst e2
      obtain ⟨hr, hs, hu⟩ :=
        process_common_ignore_last s cfg pkt0 pkt0.sequence
      refine ⟨hr, hs, hu, fun pkt hpkt => ?_⟩
      have hpe : pkt0 = pkt := Except.ok.inj hpkt
      subst hpe
      refine ⟨?_, ?_, ?_, ?_⟩
      · rw [process_common_validation_performed]
      · rw [process_common_seq_warning]
      · rw [process_common_validation_performed]
      · rw [process_common_seq_warning]

/-- Witness for C2 (amended): at the concrete session with previous
sequence 5 and delivered bytes [0x06, 0xAA], the two entry points return
the same result value. -/
theorem C2_paths_agree_witness :
    (mds_process_packet_common { sess5 with last_sequence := 6 } cfg0
      pkt6).ret = (mds_process_packet_common sess5 cfg0 pkt6).ret :=
  ((C2_paths_agree_except_validation sess5 cfg0 (-1) [0x06, 0xAA]
    readBackend rfl rfl).2
    (mds_process_packet_common { sess5 with last_sequence := 6 } cfg0 pkt6)
    (mds_process_packet_common sess5 cfg0 pkt6) rfl rfl).1

end MdsBridge
